import Mathlib

/-!
Shallow embedding of `src/main.py` (OLI-Converters): a contract-enrichment
pipeline that fetches Blockscout explorer data per contract, maps the
response onto a canonical contract record, and aggregates run statistics.

Modelling choices:
* Python dataclass `Contract` becomes a Lean structure.  `name` is
  `Option String` because the explorer JSON may carry `"name": null`
  (the custom `BlockscoutResponse.__init__` stores whatever the JSON gives).
* `requests.get` is abstracted by a stub `net : Nat → HttpResponse`
  giving the reply to the i-th HTTP request of one fetch; a decode
  failure of `response.json()` is the `Except.error` case of `json`.
* In-place mutation is modelled by explicit record updates; an exception
  thrown mid-mutation is modelled by a `raised` outcome carrying the
  record's state at the point of the exception (the Python caller keeps
  that mutated object).
* The thread pool's nondeterministic completion order is a parameter
  `completed`, constrained in theorems to be a permutation of the
  submitted slice of the input.
-/

/-- Python dataclass `Contract` (src/main.py lines 9-24). `name` is
`Option String` so that a JSON null assigned by the mapper is representable;
the dataclass default `""` is `some ""`. -/
structure Contract where
  address : String
  chain_id : String
  name : Option String := some ""
  owner_project : String := ""
  usage_category : String := ""
  deployment_tx : String := ""
  deployer_address : String := ""
  deployment_date : String := ""
  verified_status : Bool := false
  is_proxy_contract : Bool := false
  proxy_address : String := ""
  implementation_address : String := ""
  source_repo_url : String := ""
  origin_key : String := ""
  deriving DecidableEq, Repr

/-- Python dataclass `BlockscoutResponse` (lines 26-52). Its custom
`__init__` setattr-s any known key from the JSON (so `name` may be null)
and stores unknown keys in `additional_fields`. -/
structure BlockscoutResponse where
  address : String := ""
  name : Option String := some ""
  is_verified : Bool := false
  is_fully_verified : Bool := false
  is_partially_verified : Bool := false
  is_verified_via_sourcify : Bool := false
  sourcify_repo_url : String := ""
  minimal_proxy_address_hash : String := ""
  compiler_version : String := ""
  evm_version : String := ""
  optimizer : String := ""
  verified_at : String := ""
  additional_fields : List (String × String) := []
  deriving DecidableEq, Repr

/-- Python dataclass `ProcessingStats` (lines 54-60). -/
structure ProcessingStats where
  total_contracts : Nat := 0
  processed_count : Nat := 0
  contracts_with_name : Nat := 0
  proxy_contracts : Nat := 0
  elapsed_time : String := ""
  deriving DecidableEq, Repr

/-- The `BLOCKSCOUT_APIS` dict (lines 62-72): origin key to API base URL;
`dict.get` returns `none` for unknown keys. -/
def BLOCKSCOUT_APIS : String → Option String
  | "optimism" => some "https://optimism.blockscout.com/api/v2/smart-contracts/"
  | "polygon_zkevm" => some "https://zkevm.blockscout.com/api/v2/smart-contracts/"
  | "mode" => some "https://explorer.mode.network/api/v2/smart-contracts/"
  | "arbitrum" => some "https://arbitrum.blockscout.com//api/v2/smart-contracts/"
  | "zora" => some "https://explorer.zora.energy/api/v2/smart-contracts/"
  | "base" => some "https://base.blockscout.com/api/v2/smart-contracts/"
  | "zksync_era" => some "https://zksync.blockscout.com/api/v2/smart-contracts/"
  | "linea" => some "https://explorer.linea.build/api/v2/smart-contracts/"
  | "redstone" => some "https://explorer.redstone.xyz/api/v2/smart-contracts/"
  | _ => none

/-- The `CHAIN_ID_MAP` dict (lines 74-84). -/
def CHAIN_ID_MAP : String → Option String
  | "optimism" => some "eip155-10"
  | "polygon_zkevm" => some "eip155-1101"
  | "mode" => some "eip155-34443"
  | "arbitrum" => some "eip155-42161"
  | "zora" => some "eip155-7777777"
  | "base" => some "eip155-8453"
  | "zksync_era" => some "eip155-324"
  | "linea" => some "eip155-59144"
  | "redstone" => some "eip155-17001"
  | _ => none

/-- Does the character list `hay` start with `needle`? -/
def startsWithList : List Char → List Char → Bool
  | _, [] => true
  | [], _ :: _ => false
  | a :: as, b :: bs => a == b && startsWithList as bs

/-- Substring containment on character lists (Python `needle in hay`). -/
def hasSubstr : List Char → List Char → Bool
  | [], needle => needle.isEmpty
  | c :: rest, needle => startsWithList (c :: rest) needle || hasSubstr rest needle

/-- Python `needle in hay` on strings. -/
def strContains (hay needle : String) : Bool :=
  hasSubstr hay.toList needle.toList

/-- ASCII lower-casing of one character, as `str.lower()` acts on the ASCII
range (the names the heuristic of line 132 inspects). -/
def charLower (c : Char) : Char :=
  if 65 ≤ c.toNat ∧ c.toNat ≤ 90 then Char.ofNat (c.toNat + 32) else c

/-- Python `s.lower()` restricted to ASCII case mapping. -/
def pyLower (s : String) : String :=
  String.mk (s.toList.map charLower)

/-- Python truthiness of an (optionally null) string: `None` and `""` are
falsy, any other string truthy. -/
def pyTruthy : Option String → Bool
  | none => false
  | some s => s != ""

/-- One HTTP reply as seen by `fetch_blockscout_data`: the status code and,
for a 200 reply, the outcome of `response.json()` decoded into a
`BlockscoutResponse` (`Except.error` = malformed body, i.e. `json()` raises). -/
structure HttpResponse where
  status_code : Nat
  json : Except String BlockscoutResponse
  deriving Repr

/-- Error outcomes of `fetch_blockscout_data`: `ValueError("Contract not
found")` on 404, the generic `Exception` after the retry loop, and the
exception propagating out of `response.json()` / decoding on a 200 reply. -/
inductive FetchError where
  | notFound
  | exhaustedRetries
  | decodeFailure (msg : String)
  deriving DecidableEq, Repr

/-- Result of one call to `fetch_blockscout_data` together with an
observable trace: how many HTTP requests were issued and how many
`time.sleep(retry_delay)` calls ran. -/
structure FetchResult where
  outcome : Except FetchError BlockscoutResponse
  requests : Nat
  sleeps : Nat
  deriving Repr

/-- The retry loop of `fetch_blockscout_data` (lines 107-113): `net i` is the
reply to the request of iteration `i`; `fuel` is the remaining iterations of
`range(max_retries)`.  A 200 reply returns the decoded body (or propagates
the decode exception immediately); a 404 raises immediately; any other
status sleeps once and retries. -/
def fetchLoop (net : Nat → HttpResponse) : Nat → Nat → FetchResult
  | _, 0 => ⟨Except.error FetchError.exhaustedRetries, 0, 0⟩
  | i, fuel + 1 =>
    let r := net i
    if r.status_code = 200 then
      match r.json with
      | Except.ok b => ⟨Except.ok b, 1, 0⟩
      | Except.error m => ⟨Except.error (FetchError.decodeFailure m), 1, 0⟩
    else if r.status_code = 404 then
      ⟨Except.error FetchError.notFound, 1, 0⟩
    else
      let rest := fetchLoop net (i + 1) fuel
      ⟨rest.outcome, rest.requests + 1, rest.sleeps + 1⟩

/-- Python `fetch_blockscout_data` (lines 102-115): `max_retries = 3`,
`retry_delay = 1`.  The URL argument does not influence control flow and is
absorbed into the stub `net`. -/
def fetch_blockscout_data (net : Nat → HttpResponse) : FetchResult :=
  fetchLoop net 0 3

/-- Outcome of `map_blockscout_to_open_labels`: either the fully updated
record, or an exception (`AttributeError` from `None.lower()`) thrown after
some fields were already mutated in place — `raised` carries the record's
state at the exception point, which is what the Python caller still holds. -/
inductive MapOutcome where
  | ok (c : Contract)
  | raised (c : Contract)
  deriving DecidableEq, Repr

/-- The record carried by a `MapOutcome` (the object the caller holds). -/
def MapOutcome.result : MapOutcome → Contract
  | .ok c => c
  | .raised c => c

/-- Whether the mapping step raised. -/
def MapOutcome.didRaise : MapOutcome → Bool
  | .ok _ => false
  | .raised _ => true

/-- Lines 135-138 of the mapper: chain-id normalisation via `CHAIN_ID_MAP.get`
with the current `chain_id` as default, then `deployment_date` overwritten
only when `verified_at` is truthy. -/
def applyChainAndDate (c : Contract) (bd : BlockscoutResponse) : Contract :=
  let c1 := { c with chain_id := (CHAIN_ID_MAP c.origin_key).getD c.chain_id }
  if bd.verified_at != "" then { c1 with deployment_date := bd.verified_at } else c1

/-- Python `map_blockscout_to_open_labels` (lines 117-140).  Field updates
happen in source order; when `minimal_proxy_address_hash` is falsy and the
just-assigned `name` is null, `contract.name.lower()` raises
`AttributeError`, leaving the record with the updates of lines 118-129
applied and lines 135-138 not reached. -/
def map_blockscout_to_open_labels (contract : Contract) (bd : BlockscoutResponse) : MapOutcome :=
  let c1 : Contract :=
    { contract with
      name := bd.name
      verified_status := bd.is_verified || bd.is_fully_verified ||
        bd.is_partially_verified || bd.is_verified_via_sourcify
      source_repo_url := bd.sourcify_repo_url
      is_proxy_contract := bd.minimal_proxy_address_hash != ""
      proxy_address := bd.minimal_proxy_address_hash
      implementation_address := bd.minimal_proxy_address_hash }
  if c1.is_proxy_contract then
    MapOutcome.ok (applyChainAndDate c1 bd)
  else
    match c1.name with
    | none => MapOutcome.raised c1
    | some s =>
      let c2 :=
        if strContains (pyLower s) "proxy" || strContains (pyLower s) "erc1967" then
          { c1 with is_proxy_contract := true }
        else c1
      MapOutcome.ok (applyChainAndDate c2 bd)

/-- Python `process_contract` (lines 142-156) with the number of HTTP
requests issued as second component.  Unknown origin key: no request, record
returned as-is.  A fetch exception (404 / exhausted retries / decode
failure) is caught and the untouched record returned.  An exception inside
the mapper is caught too, but the record it returns is the in-place-mutated
object at the exception point. -/
def process_contract (net : Nat → HttpResponse) (contract : Contract) : Contract × Nat :=
  match BLOCKSCOUT_APIS contract.origin_key with
  | none => (contract, 0)
  | some _ =>
    let fr := fetch_blockscout_data net
    match fr.outcome with
    | Except.ok bd => ((map_blockscout_to_open_labels contract bd).result, fr.requests)
    | Except.error _ => (contract, fr.requests)

/-- Python slice `l[:k]` for an arbitrary integer `k`. -/
def pySlice {α : Type} (l : List α) (k : Int) : List α :=
  if 0 ≤ k then l.take k.toNat else l.take (l.length - (-k).toNat)

/-- The sublist actually submitted to the executor (line 164):
`contracts[:max_queries or len(contracts)]` — `0` is falsy, any other
integer (negative included) is used as the slice bound. -/
def submittedSlice (contracts : List Contract) (max_queries : Int) : List Contract :=
  pySlice contracts (if max_queries = 0 then (contracts.length : Int) else max_queries)

/-- Initial stats of a run (line 160): `total_contracts` is the length of
the FULL input list, set before any submission. -/
def initStats (contracts : List Contract) : ProcessingStats :=
  { total_contracts := contracts.length }

/-- One iteration of the `as_completed` loop body on the stats (lines
168-172): `processed_count` always bumps; the name and proxy counters bump
on the truthiness tests of the PROCESSED record. -/
def observe (s : ProcessingStats) (c : Contract) : ProcessingStats :=
  { s with
    processed_count := s.processed_count + 1
    contracts_with_name := s.contracts_with_name + (if pyTruthy c.name then 1 else 0)
    proxy_contracts := s.proxy_contracts + (if c.is_proxy_contract then 1 else 0) }

/-- Python `process_contracts` (lines 158-176).  `net c` is the reply stream
the worker of record `c` sees; `completed` is the order in which
`as_completed` yields the submitted records (theorems constrain it to a
permutation of `submittedSlice contracts max_queries`).  Results are
appended and stats folded in completion order. -/
def process_contracts (net : Contract → Nat → HttpResponse) (contracts : List Contract)
    (max_queries : Int) (completed : List Contract) : List Contract × ProcessingStats :=
  let _ := max_queries
  let results := completed.map fun c => (process_contract (net c) c).1
  (results, results.foldl observe (initStats contracts))

/-! Concrete fixtures used by witnesses and counterexamples. -/

/-- A seed record on a known chain, as the loader produces it
(`chain_id` initialised to the origin key). -/
def cOpt : Contract := { address := "0xabc", chain_id := "optimism", origin_key := "optimism" }

/-- A seed record whose origin key has no registry entry. -/
def cUnknown : Contract :=
  { address := "0xdef", chain_id := "unknown_chain", origin_key := "unknown_chain" }

/-- An explorer response whose JSON carried `"name": null`. -/
def bdNull : BlockscoutResponse := { name := none }

/-- An explorer response with empty proxy hash and a proxy-looking name. -/
def bdProxyName : BlockscoutResponse := { name := some "MyERC1967Proxy" }

/-- An explorer response with empty proxy hash and a neutral name. -/
def bdToken : BlockscoutResponse := { name := some "Token" }

/-- A reply stream: every request gets HTTP 200 whose body decodes with a
null name. -/
def netNull : Nat → HttpResponse := fun _ => ⟨200, Except.ok bdNull⟩

/-- A reply stream: every request gets a transient HTTP 500. -/
def netTransientW : Nat → HttpResponse := fun _ => ⟨500, Except.error "Internal Server Error"⟩

/-- A reply stream: every request gets HTTP 404. -/
def net404W : Nat → HttpResponse := fun _ => ⟨404, Except.error ""⟩

/-- A reply stream: every request gets HTTP 200 with a malformed body
(`response.json()` raises). -/
def netBadW : Nat → HttpResponse := fun _ => ⟨200, Except.error "Expecting value"⟩

/-- A per-record reply environment where every worker sees HTTP 500s. -/
def netW : Contract → Nat → HttpResponse := fun _ _ => ⟨500, Except.error "Internal Server Error"⟩

/-- Two-record input batch. -/
def cs2 : List Contract := [cOpt, cUnknown]

/-- Three-record input batch (all unknown origin, so no requests happen). -/
def cs8 : List Contract := [cUnknown, cUnknown, cUnknown]

/-- The record the mapper produces from `cOpt` and `bdProxyName`. -/
def mappedProxyName : Contract := (map_blockscout_to_open_labels cOpt bdProxyName).result

/-- The record the mapper produces from `cOpt` and `bdToken`. -/
def mappedToken : Contract := (map_blockscout_to_open_labels cOpt bdToken).result

/-- Componentwise order on the four counters of `ProcessingStats`. -/
def statsLe (s t : ProcessingStats) : Prop :=
  s.total_contracts ≤ t.total_contracts ∧ s.processed_count ≤ t.processed_count ∧
    s.contracts_with_name ≤ t.contracts_with_name ∧ s.proxy_contracts ≤ t.proxy_contracts

/-- Stats visible after the first `k` iterations of the `as_completed` loop
of a run with completion order `completed`. -/
def statsDuringRun (net : Contract → Nat → HttpResponse) (contracts : List Contract)
    (completed : List Contract) (k : Nat) : ProcessingStats :=
  ((completed.map fun c => (process_contract (net c) c).1).take k).foldl observe
    (initStats contracts)

/-! Helper lemmas. -/

/-- Lines 135-138 never touch the proxy flag. -/
theorem applyChainAndDate_is_proxy (c : Contract) (bd : BlockscoutResponse) :
    (applyChainAndDate c bd).is_proxy_contract = c.is_proxy_contract := by
  by_cases h : bd.verified_at != "" <;> simp [applyChainAndDate, h]

/-- Folding the loop body adds exactly the number of results to
`processed_count`. -/
theorem foldl_observe_processed (l : List Contract) :
    ∀ s : ProcessingStats, (l.foldl observe s).processed_count = s.processed_count + l.length := by
  induction l with
  | nil => intro s; simp
  | cons c l ih =>
    intro s
    simp only [List.foldl_cons, ih, observe, List.length_cons]
    omega

/-- Folding the loop body never changes `total_contracts`. -/
theorem foldl_observe_total (l : List Contract) :
    ∀ s : ProcessingStats, (l.foldl observe s).total_contracts = s.total_contracts := by
  induction l with
  | nil => intro s; simp
  | cons c l ih => intro s; simp only [List.foldl_cons, ih, observe]

/-- The name counter grows by at most one per result. -/
theorem foldl_observe_name_le (l : List Contract) :
    ∀ s : ProcessingStats,
      (l.foldl observe s).contracts_with_name ≤ s.contracts_with_name + l.length := by
  induction l with
  | nil => intro s; simp
  | cons c l ih =>
    intro s
    have h := ih (observe s c)
    simp only [List.foldl_cons, List.length_cons]
    have hs : (observe s c).contracts_with_name ≤ s.contracts_with_name + 1 := by
      simp only [observe]
      split <;> omega
    omega

/-- The proxy counter grows by at most one per result. -/
theorem foldl_observe_proxy_le (l : List Contract) :
    ∀ s : ProcessingStats,
      (l.foldl observe s).proxy_contracts ≤ s.proxy_contracts + l.length := by
  induction l with
  | nil => intro s; simp
  | cons c l ih =>
    intro s
    have h := ih (observe s c)
    simp only [List.foldl_cons, List.length_cons]
    have hs : (observe s c).proxy_contracts ≤ s.proxy_contracts + 1 := by
      simp only [observe]
      split <;> omega
    omega

/-- One loop iteration only increases the counters. -/
theorem statsLe_observe (s : ProcessingStats) (c : Contract) : statsLe s (observe s c) := by
  refine ⟨le_refl _, by simp only [observe]; omega, ?_, ?_⟩ <;>
    simp only [observe] <;> split <;> omega

/-- `statsLe` is transitive. -/
theorem statsLe_trans {s t u : ProcessingStats} (h1 : statsLe s t) (h2 : statsLe t u) :
    statsLe s u := by
  obtain ⟨a1, b1, c1, d1⟩ := h1
  obtain ⟨a2, b2, c2, d2⟩ := h2
  exact ⟨le_trans a1 a2, le_trans b1 b2, le_trans c1 c2, le_trans d1 d2⟩

/-- Folding the loop body only increases the counters. -/
theorem statsLe_foldl (l : List Contract) :
    ∀ s : ProcessingStats, statsLe s (l.foldl observe s) := by
  induction l with
  | nil => intro s; exact ⟨le_refl _, le_refl _, le_refl _, le_refl _⟩
  | cons c l ih =>
    intro s
    exact statsLe_trans (statsLe_observe s c) (ih (observe s c))

/-- Length of the submitted slice for a non-negative bound. -/
theorem submittedSlice_length_nonneg (contracts : List Contract) (m : Int) (hm : 0 ≤ m) :
    (submittedSlice contracts m).length
      = min (if m = 0 then contracts.length else m.toNat) contracts.length := by
  by_cases h : m = 0
  · subst h
    simp [submittedSlice, pySlice]
  · simp [submittedSlice, pySlice, h, hm, List.length_take]

/-- The submitted slice for a negative bound is the Python negative slice. -/
theorem submittedSlice_neg (contracts : List Contract) (m : Int) (hm : m < 0) :
    submittedSlice contracts m = contracts.take (contracts.length - (-m).toNat) := by
  have h0 : ¬ m = 0 := by omega
  have h1 : ¬ 0 ≤ m := by omega
  simp [submittedSlice, pySlice, h0, h1]

/-! Claim theorems. -/

/-- C3: `fetch_blockscout_data` has the three outcomes the spec names: a 200
reply with a decodable body returns the decoded response after one request;
a 404 reply raises NotFound immediately after one request; if every reply
has a transient status (neither 200 nor 404) the stub is queried exactly 3
times, one sleep of the fixed delay following each attempt, and the call
ends in ExhaustedRetries. -/
theorem fetch_trichotomy (net : Nat → HttpResponse) :
    (∀ b : BlockscoutResponse, (net 0).status_code = 200 → (net 0).json = Except.ok b →
      fetch_blockscout_data net = ⟨Except.ok b, 1, 0⟩) ∧
    ((net 0).status_code = 404 →
      fetch_blockscout_data net = ⟨Except.error FetchError.notFound, 1, 0⟩) ∧
    ((∀ i, i < 3 → (net i).status_code ≠ 200 ∧ (net i).status_code ≠ 404) →
      fetch_blockscout_data net = ⟨Except.error FetchError.exhaustedRetries, 3, 3⟩) := by
  refine ⟨?_, ?_, ?_⟩
  · intro b h200 hjson
    simp [fetch_blockscout_data, fetchLoop, h200, hjson]
  · intro h404
    simp [fetch_blockscout_data, fetchLoop, h404]
  · intro h
    have h0 := h 0 (by omega)
    have h1 := h 1 (by omega)
    have h2 := h 2 (by omega)
    simp [fetch_blockscout_data, fetchLoop, h0.1, h0.2, h1.1, h1.2, h2.1, h2.2]

/-- C3 witness: concrete stubs exercising all three branches. -/
theorem fetch_trichotomy_witness :
    fetch_blockscout_data netNull = ⟨Except.ok bdNull, 1, 0⟩ ∧
    fetch_blockscout_data net404W = ⟨Except.error FetchError.notFound, 1, 0⟩ ∧
    fetch_blockscout_data netTransientW = ⟨Except.error FetchError.exhaustedRetries, 3, 3⟩ := by
  refine ⟨(fetch_trichotomy netNull).1 bdNull rfl rfl,
    (fetch_trichotomy net404W).2.1 rfl,
    (fetch_trichotomy netTransientW).2.2 ?_⟩
  intro i _
  exact ⟨by simp [netTransientW], by simp [netTransientW]⟩

/-- C6 counterexample: a stub whose every reply is HTTP 200 with a malformed
body makes `fetch_blockscout_data` fail after a single request with a decode
error, not after 3 attempts with ExhaustedRetries as the claim states. -/
theorem decode_retry_counterexample :
    fetch_blockscout_data netBadW
      = ⟨Except.error (FetchError.decodeFailure "Expecting value"), 1, 0⟩ ∧
    FetchError.decodeFailure "Expecting value" ≠ FetchError.exhaustedRetries ∧
    (1 : Nat) ≠ 3 :=
  ⟨rfl, by decide, by decide⟩

/-- C6 amended: a malformed response body on an HTTP 200 reply makes the
fetch raise immediately on that attempt — one request, no sleep, no retry —
propagating the decode error, not ExhaustedRetries. -/
theorem decode_failure_immediate (net : Nat → HttpResponse) (msg : String)
    (h200 : (net 0).status_code = 200) (hjson : (net 0).json = Except.error msg) :
    fetch_blockscout_data net = ⟨Except.error (FetchError.decodeFailure msg), 1, 0⟩ := by
  simp [fetch_blockscout_data, fetchLoop, h200, hjson]

/-- C6 witness: the amended behaviour at the concrete malformed-body stub. -/
theorem decode_failure_immediate_witness :
    fetch_blockscout_data netBadW
      = ⟨Except.error (FetchError.decodeFailure "Expecting value"), 1, 0⟩ :=
  decode_failure_immediate netBadW "Expecting value" rfl rfl

/-- C4 counterexample: the mapper is not total — on a response whose JSON
carried `"name": null` with an empty proxy hash, `contract.name.lower()`
raises (AttributeError), so `apply` has a failure path. -/
theorem map_total_counterexample :
    (map_blockscout_to_open_labels cOpt bdNull).didRaise = true := rfl

/-- C4 amended: the mapper is a pure function of its two arguments and it
never raises whenever the response's name is an actual string; only a null
name combined with an empty minimal-proxy-address-hash raises. -/
theorem map_no_raise_on_string_name (c : Contract) (bd : BlockscoutResponse) (s : String)
    (h : bd.name = some s) :
    (map_blockscout_to_open_labels c bd).didRaise = false := by
  by_cases hp : bd.minimal_proxy_address_hash != ""
  · simp [map_blockscout_to_open_labels, hp, MapOutcome.didRaise]
  · simp only [map_blockscout_to_open_labels, hp, if_false, h]
    split <;> rfl

/-- C4 witness: the mapper does not raise on a concrete string-named
response. -/
theorem map_no_raise_witness :
    (map_blockscout_to_open_labels cOpt bdProxyName).didRaise = false :=
  map_no_raise_on_string_name cOpt bdProxyName "MyERC1967Proxy" rfl

/-- C5: whenever the mapper returns a record, a non-empty
minimal-proxy-address-hash forces the proxy flag regardless of the name, and
with an empty hash the flag equals the case-insensitive name heuristic
(substring "proxy" or "erc1967"). -/
theorem proxy_detection_precedence (c : Contract) (bd : BlockscoutResponse) (c' : Contract)
    (h : map_blockscout_to_open_labels c bd = MapOutcome.ok c') :
    (bd.minimal_proxy_address_hash ≠ "" → c'.is_proxy_contract = true) ∧
    (bd.minimal_proxy_address_hash = "" →
      ∃ s, bd.name = some s ∧
        c'.is_proxy_contract
          = (strContains (pyLower s) "proxy" || strContains (pyLower s) "erc1967")) := by
  constructor
  · intro hne
    have hp : (bd.minimal_proxy_address_hash != "") = true := by simp [hne]
    simp only [map_blockscout_to_open_labels, hp, if_true] at h
    injection h with h
    subst h
    rw [applyChainAndDate_is_proxy]
  · intro he
    have hp : (bd.minimal_proxy_address_hash != "") = false := by simp [he]
    simp only [map_blockscout_to_open_labels, hp, Bool.false_eq_true, if_false] at h
    cases hn : bd.name with
    | none =>
      rw [hn] at h
      exact MapOutcome.noConfusion h
    | some s =>
      rw [hn] at h
      refine ⟨s, rfl, ?_⟩
      by_cases hh : (strContains (pyLower s) "proxy" || strContains (pyLower s) "erc1967") = true
      · simp only [hh, if_true] at h
        injection h with h
        subst h
        rw [applyChainAndDate_is_proxy]
        simp [hh]
      · simp only [Bool.not_eq_true] at hh
        simp only [hh, Bool.false_eq_true, if_false] at h
        injection h with h
        subst h
        rw [applyChainAndDate_is_proxy]
        simp [hh]

/-- C5 witness: with empty hash, the name "MyERC1967Proxy" flags a proxy and
the name "Token" does not. -/
theorem proxy_detection_witness :
    bdProxyName.minimal_proxy_address_hash = "" ∧
    (∃ s, bdProxyName.name = some s ∧
      mappedProxyName.is_proxy_contract
        = (strContains (pyLower s) "proxy" || strContains (pyLower s) "erc1967")) ∧
    mappedProxyName.is_proxy_contract = true ∧
    mappedToken.is_proxy_contract = false := by
  exact ⟨rfl, (proxy_detection_precedence cOpt bdProxyName mappedProxyName rfl).2 rfl, rfl, rfl⟩

/-- C2 counterexample: a record on a known chain whose 200-reply decodes
with a null name makes the mapping step raise after several in-place field
updates; `process_contract` catches the exception but emits the mutated
object, so the emitted record differs from the original. -/
theorem dispatcher_pass_through_counterexample :
    (process_contract netNull cOpt).1 ≠ cOpt ∧
    (process_contract netNull cOpt).1.name = none ∧
    cOpt.name = some "" := by
  refine ⟨by decide, rfl, rfl⟩

/-- C2 amended: failures before the mapping step are fully contained — an
unknown origin-key returns the record unchanged with zero HTTP requests, and
any fetch error (NotFound, ExhaustedRetries, decode failure) returns the
record unchanged; an exception inside the mapping step is also contained
(the batch never aborts) but the emitted record is the in-place-mutated
object at the exception point, not the original. -/
theorem dispatcher_pass_through (net : Nat → HttpResponse) (c : Contract) :
    (BLOCKSCOUT_APIS c.origin_key = none → process_contract net c = (c, 0)) ∧
    (∀ e : FetchError, (fetch_blockscout_data net).outcome = Except.error e →
      (process_contract net c).1 = c) ∧
    (∀ u : String, ∀ bd : BlockscoutResponse, ∀ cp : Contract,
      BLOCKSCOUT_APIS c.origin_key = some u →
      (fetch_blockscout_data net).outcome = Except.ok bd →
      map_blockscout_to_open_labels c bd = MapOutcome.raised cp →
      (process_contract net c).1 = cp) := by
  refine ⟨?_, ?_, ?_⟩
  · intro h
    simp [process_contract, h]
  · intro e he
    cases hl : BLOCKSCOUT_APIS c.origin_key with
    | none => simp [process_contract, hl]
    | some u => simp [process_contract, hl, he]
  · intro u bd cp hl hf hm
    simp [process_contract, hl, hf, hm, MapOutcome.result]

/-- C2 witness: a record with origin key "unknown_chain" passes through
unchanged with no network request, its chain-id still the origin key. -/
theorem dispatcher_pass_through_witness :
    process_contract netNull cUnknown = (cUnknown, 0) ∧
    cUnknown.chain_id = cUnknown.origin_key :=
  ⟨(dispatcher_pass_through netNull cUnknown).1 rfl, rfl⟩

/-- C1: for a non-negative bound, any completion order of the run yields one
output per submitted record — the outputs are a permutation of the processed
submitted slice — and the output length is
`min(maxToProcess or len(input), len(input))`. -/
theorem dispatcher_output_count (net : Contract → Nat → HttpResponse)
    (contracts : List Contract) (m : Int) (completed : List Contract)
    (hm : 0 ≤ m) (hperm : completed.Perm (submittedSlice contracts m)) :
    (process_contracts net contracts m completed).1.Perm
      ((submittedSlice contracts m).map fun c => (process_contract (net c) c).1) ∧
    (process_contracts net contracts m completed).1.length
      = min (if m = 0 then contracts.length else m.toNat) contracts.length := by
  constructor
  · exact hperm.map _
  · simp only [process_contracts, List.length_map]
    rw [hperm.length_eq]
    exact submittedSlice_length_nonneg contracts m hm

/-- C1 witness: a two-record batch bounded to one record yields one output. -/
theorem dispatcher_output_count_witness :
    (process_contracts netW cs2 1 (submittedSlice cs2 1)).1.length = min 1 cs2.length := by
  have h := (dispatcher_output_count netW cs2 1 (submittedSlice cs2 1) (by decide)
    (List.Perm.refl _)).2
  simpa using h

/-- C7: for every run (any reply environment, any completion order), the
final `processed_count` equals the output length, the name and proxy
counters never exceed it, and all four counters are monotone along the
`as_completed` loop. -/
theorem stats_invariants (net : Contract → Nat → HttpResponse) (contracts : List Contract)
    (m : Int) (completed : List Contract) :
    (process_contracts net contracts m completed).2.processed_count
      = (process_contracts net contracts m completed).1.length ∧
    (process_contracts net contracts m completed).2.contracts_with_name
      ≤ (process_contracts net contracts m completed).2.processed_count ∧
    (process_contracts net contracts m completed).2.proxy_contracts
      ≤ (process_contracts net contracts m completed).2.processed_count ∧
    ∀ k : Nat, statsLe (statsDuringRun net contracts completed k)
      (statsDuringRun net contracts completed (k + 1)) := by
  have hproc := foldl_observe_processed
    (completed.map fun c => (process_contract (net c) c).1) (initStats contracts)
  have hname := foldl_observe_name_le
    (completed.map fun c => (process_contract (net c) c).1) (initStats contracts)
  have hproxy := foldl_observe_proxy_le
    (completed.map fun c => (process_contract (net c) c).1) (initStats contracts)
  refine ⟨?_, ?_, ?_, ?_⟩
  · simp only [process_contracts]
    rw [hproc]
    simp [initStats]
  · simp only [process_contracts]
    rw [hproc]
    simpa [initStats] using hname
  · simp only [process_contracts]
    rw [hproc]
    simpa [initStats] using hproxy
  · intro k
    unfold statsDuringRun
    rw [List.take_succ, List.foldl_append]
    exact statsLe_foldl _ _

/-- C8 counterexample: three records with a bound of one — the submitted
slice has length one, yet the run's `total_contracts` counter is three (the
full input length), so the total counter does not equal the number of
records actually submitted. -/
theorem stats_total_counterexample :
    (submittedSlice cs8 1).Perm (submittedSlice cs8 1) ∧
    (submittedSlice cs8 1).length = 1 ∧
    (process_contracts netW cs8 1 (submittedSlice cs8 1)).2.total_contracts = 3 ∧
    (3 : Nat) ≠ 1 :=
  ⟨List.Perm.refl _, rfl, rfl, by decide⟩

/-- C8 amended: the run's total counter always equals the FULL input list's
length, set before submission — not the length of the bounded slice. -/
theorem stats_total_full_input (net : Contract → Nat → HttpResponse)
    (contracts : List Contract) (m : Int) (completed : List Contract) :
    (process_contracts net contracts m completed).2.total_contracts = contracts.length := by
  simp only [process_contracts]
  rw [foldl_observe_total]
  rfl

/-- C10: for a negative bound, the submitted slice is the Python negative
slice `input[:maxToProcess]` — everything except the last `|maxToProcess|`
records — so the output length is `len(input) - |maxToProcess|` truncated at
zero (Nat subtraction), neither the full input nor an error. -/
theorem negative_bound_slice (net : Contract → Nat → HttpResponse)
    (contracts : List Contract) (m : Int) (completed : List Contract)
    (hm : m < 0) (hperm : completed.Perm (submittedSlice contracts m)) :
    submittedSlice contracts m = contracts.take (contracts.length - (-m).toNat) ∧
    (process_contracts net contracts m completed).1.length
      = contracts.length - (-m).toNat := by
  have hs := submittedSlice_neg contracts m hm
  refine ⟨hs, ?_⟩
  simp only [process_contracts, List.length_map]
  rw [hperm.length_eq, hs, List.length_take]
  omega

/-- C10 witness: a two-record batch with bound -1 submits one record. -/
theorem negative_bound_slice_witness :
    (process_contracts netW cs2 (-1) (submittedSlice cs2 (-1))).1.length = cs2.length - 1 := by
  have h := (negative_bound_slice netW cs2 (-1) (submittedSlice cs2 (-1)) (by decide)
    (List.Perm.refl _)).2
  simpa using h
